import Mathlib

/-!
Verification of the gray-level quantizer `ImageProcessor.reduce_gray_levels`
from `tp3.py` and `tp3_V3.py`.

Modelling choices:
* A grayscale image (numpy 2-D array) is a `List (List Int)` of intensity
  samples; an 8-bit image is one whose samples all lie in `[0, 256)`.
* Python's floor division `//` is `Int.fdiv`; `256 // levels` raises
  `ZeroDivisionError` when `levels = 0`, so the functions return
  `Except String Image`.  numpy's elementwise `//` floor-divides and yields
  `0` on division by zero (matching `Int.fdiv _ 0 = 0`).
* `tp3_V3.py`'s trailing `.astype(np.uint8)` is reduction modulo 256
  (`Int.emod _ 256`).  `tp3.py` has no such cast; for in-range inputs numpy
  keeps exact integer values there, so no wraparound is modelled.
-/

/-- A grayscale image: a two-dimensional grid of integer intensity samples. -/
abbrev Image := List (List Int)

/-- The image is a valid 8-bit grayscale image: every sample lies in `[0, 256)`. -/
def valid8 (img : Image) : Prop := ∀ row ∈ img, ∀ v ∈ row, 0 ≤ v ∧ v < 256

instance (img : Image) : Decidable (valid8 img) :=
  inferInstanceAs (Decidable (∀ row ∈ img, ∀ v ∈ row, 0 ≤ v ∧ v < 256))

/-- Elementwise map over an image grid (numpy broadcasting of `//` and `*`). -/
def mapImage (f : Int → Int) (img : Image) : Image := img.map (List.map f)

/-- The clamping step of `tp3.py` line 104–106: `if levels > 256: levels = 256`. -/
def clampLevels (levels : Int) : Int := if levels > 256 then 256 else levels

/-- `ImageProcessor.reduce_gray_levels` from `tp3.py` (lines 96–109): clamp
`levels` above 256, compute `factor = 256 // levels` (Python floor division;
raises `ZeroDivisionError` when the clamped level count is 0), then return
`(gray_image // factor) * factor` elementwise. -/
def reduce_gray_levels (gray_image : Image) (levels : Int) : Except String Image :=
  if clampLevels levels = 0 then
    Except.error "ZeroDivisionError: integer division or modulo by zero"
  else
    Except.ok (mapImage
      (fun v => Int.fdiv v (Int.fdiv 256 (clampLevels levels)) *
        Int.fdiv 256 (clampLevels levels)) gray_image)

/-- `ImageProcessor.reduce_gray_levels` from `tp3_V3.py` (lines 36–39): no
clamping; `factor = 256 // levels` (raises `ZeroDivisionError` when
`levels = 0`), then `(image // factor) * factor` elementwise followed by
`.astype(np.uint8)`, i.e. reduction modulo 256.  numpy's elementwise floor
division by zero yields 0. -/
def reduce_gray_levels_V3 (image : Image) (levels : Int) : Except String Image :=
  if levels = 0 then
    Except.error "ZeroDivisionError: integer division or modulo by zero"
  else
    Except.ok (mapImage
      (fun v => Int.emod (Int.fdiv v (Int.fdiv 256 levels) * Int.fdiv 256 levels) 256)
      image)

/-- The per-sample quantization formula of the spec:
`floor(v / factor) * factor` with `factor = floor(256 / levels)`. -/
def quantSample (levels v : Int) : Int :=
  Int.fdiv v (Int.fdiv 256 levels) * Int.fdiv 256 levels

/-- Ceiling division, for the spec phrase `ceil(256/L)`. -/
def ceilDiv (a b : Int) : Int := -(Int.fdiv (-a) b)

lemma factor_eq_ediv {L : Int} (h1 : 1 ≤ L) : Int.fdiv 256 L = 256 / L :=
  Int.fdiv_eq_ediv 256 (by omega)

lemma factor_pos_ediv {L : Int} (h1 : 1 ≤ L) (h2 : L ≤ 256) : 0 < (256 : Int) / L := by
  have h := (Int.le_ediv_iff_mul_le (show (0 : Int) < L by omega)).mpr
    (show (1 : Int) * L ≤ 256 by omega)
  exact lt_of_lt_of_le zero_lt_one h

lemma factor_pos {L : Int} (h1 : 1 ≤ L) (h2 : L ≤ 256) : 0 < Int.fdiv 256 L := by
  rw [factor_eq_ediv h1]
  exact factor_pos_ediv h1 h2

lemma factor_eq_one {L : Int} (h1 : 129 ≤ L) (h2 : L ≤ 256) : Int.fdiv 256 L = 1 := by
  rw [factor_eq_ediv (show (1 : Int) ≤ L by omega)]
  have hpos : (1 : Int) ≤ 256 / L :=
    (Int.le_ediv_iff_mul_le (show (0 : Int) < L by omega)).mpr (by omega)
  have hlt : (256 : Int) / L < 2 :=
    (Int.ediv_lt_iff_lt_mul (show (0 : Int) < L by omega)).mpr (by omega)
  have h := Int.lt_iff_add_one_le.mp hlt
  exact le_antisymm (by linarith) hpos

lemma quantSample_eq_ediv {L : Int} (h1 : 1 ≤ L) (h2 : L ≤ 256) (v : Int) :
    quantSample L v = v / (256 / L) * (256 / L) := by
  have hf : 0 < Int.fdiv 256 L := factor_pos h1 h2
  unfold quantSample
  rw [Int.fdiv_eq_ediv v (le_of_lt hf), factor_eq_ediv h1]

lemma quantSample_sub_eq {L : Int} (h1 : 1 ≤ L) (h2 : L ≤ 256) (v : Int) :
    v - quantSample L v = v % (256 / L) := by
  rw [quantSample_eq_ediv h1 h2]
  have h := Int.ediv_add_emod v (256 / L)
  linarith [mul_comm ((256 : Int) / L) (v / (256 / L))]

lemma quantSample_le {L : Int} (h1 : 1 ≤ L) (h2 : L ≤ 256) (v : Int) :
    quantSample L v ≤ v := by
  have hs := quantSample_sub_eq h1 h2 v
  have hnn : 0 ≤ v % (256 / L) :=
    Int.emod_nonneg v (ne_of_gt (factor_pos_ediv h1 h2))
  linarith

lemma quantSample_nonneg {L : Int} (h1 : 1 ≤ L) (h2 : L ≤ 256) {v : Int} (hv : 0 ≤ v) :
    0 ≤ quantSample L v := by
  rw [quantSample_eq_ediv h1 h2]
  exact mul_nonneg (Int.ediv_nonneg hv (le_of_lt (factor_pos_ediv h1 h2)))
    (le_of_lt (factor_pos_ediv h1 h2))

lemma quantSample_err_lt {L : Int} (h1 : 1 ≤ L) (h2 : L ≤ 256) (v : Int) :
    v - quantSample L v < Int.fdiv 256 L := by
  rw [quantSample_sub_eq h1 h2, factor_eq_ediv h1]
  exact Int.emod_lt_of_pos v (factor_pos_ediv h1 h2)

lemma factor_dvd_quantSample {L : Int} (h1 : 1 ≤ L) (h2 : L ≤ 256) (v : Int) :
    Int.fdiv 256 L ∣ quantSample L v := by
  rw [factor_eq_ediv h1, quantSample_eq_ediv h1 h2]
  exact dvd_mul_left _ _

lemma quantSample_idem {L : Int} (h1 : 1 ≤ L) (h2 : L ≤ 256) (v : Int) :
    quantSample L (quantSample L v) = quantSample L v := by
  rw [quantSample_eq_ediv h1 h2, quantSample_eq_ediv h1 h2,
    Int.mul_ediv_cancel _ (ne_of_gt (factor_pos_ediv h1 h2))]

lemma quantSample_eq_self_of_factor_one {L : Int} (hf : Int.fdiv 256 L = 1) (v : Int) :
    quantSample L v = v := by
  unfold quantSample
  rw [hf, Int.fdiv_one, mul_one]

lemma quantSample_one_eq_zero {v : Int} (h0 : 0 ≤ v) (h256 : v < 256) :
    quantSample 1 v = 0 := by
  unfold quantSample
  rw [show Int.fdiv 256 1 = 256 from Int.fdiv_one 256,
    Int.fdiv_eq_ediv v (show (0 : Int) ≤ 256 by omega),
    Int.ediv_eq_zero_of_lt h0 h256, zero_mul]

lemma mapImage_congr_mem {f g : Int → Int} {img : Image}
    (h : ∀ row ∈ img, ∀ v ∈ row, f v = g v) :
    mapImage f img = mapImage g img := by
  unfold mapImage
  exact List.map_congr_left (fun row hrow => List.map_congr_left (fun v hv => h row hrow v hv))

lemma mapImage_id_mem {f : Int → Int} {img : Image}
    (h : ∀ row ∈ img, ∀ v ∈ row, f v = v) :
    mapImage f img = img := by
  unfold mapImage
  have hrow : ∀ row ∈ img, List.map f row = row := fun row hrow =>
    ((List.map_congr_left (h row hrow)).trans (List.map_id row))
  calc img.map (List.map f) = img.map id := List.map_congr_left (fun r hr =>
        (hrow r hr).trans rfl)
    _ = img := List.map_id img

lemma mapImage_comp (f g : Int → Int) (img : Image) :
    mapImage f (mapImage g img) = mapImage (fun v => f (g v)) img := by
  unfold mapImage
  simp [List.map_map, Function.comp]

lemma mapImage_shape (f : Int → Int) (img : Image) :
    (mapImage f img).length = img.length ∧
    (mapImage f img).map List.length = img.map List.length := by
  unfold mapImage
  constructor
  · simp
  · simp [List.map_map, Function.comp]

lemma forall₂_mapImage {R : Int → Int → Prop} {f : Int → Int} {img : Image}
    (h : ∀ row ∈ img, ∀ v ∈ row, R v (f v)) :
    List.Forall₂ (List.Forall₂ R) img (mapImage f img) := by
  unfold mapImage
  rw [List.forall₂_map_right_iff, List.forall₂_same]
  intro row hrow
  rw [List.forall₂_map_right_iff, List.forall₂_same]
  exact h row hrow

lemma clampLevels_eq_self {L : Int} (h : L ≤ 256) : clampLevels L = L :=
  if_neg (by omega)

lemma reduce_gray_levels_ok {L : Int} (h1 : 1 ≤ L) (h2 : L ≤ 256) (img : Image) :
    reduce_gray_levels img L = Except.ok (mapImage (quantSample L) img) := by
  unfold reduce_gray_levels
  rw [clampLevels_eq_self h2, if_neg (show ¬ L = 0 by omega)]
  rfl

lemma reduce_gray_levels_V3_ok {L : Int} (h1 : 1 ≤ L) (h2 : L ≤ 256) {img : Image}
    (hv : valid8 img) :
    reduce_gray_levels_V3 img L = Except.ok (mapImage (quantSample L) img) := by
  unfold reduce_gray_levels_V3
  rw [if_neg (show ¬ L = 0 by omega)]
  congr 1
  refine mapImage_congr_mem (fun row hrow v hvm => ?_)
  have hb := hv row hrow v hvm
  show Int.emod (quantSample L v) 256 = quantSample L v
  exact Int.emod_eq_of_lt (quantSample_nonneg h1 h2 hb.1)
    (lt_of_le_of_lt (quantSample_le h1 h2 v) hb.2)

lemma valid8_mapImage_quant {L : Int} (h1 : 1 ≤ L) (h2 : L ≤ 256) {img : Image}
    (hv : valid8 img) : valid8 (mapImage (quantSample L) img) := by
  intro row hrow v hvm
  obtain ⟨row0, hrow0, rfl⟩ := List.mem_map.mp hrow
  obtain ⟨v0, hv0, rfl⟩ := List.mem_map.mp hvm
  have hb := hv row0 hrow0 v0 hv0
  exact ⟨quantSample_nonneg h1 h2 hb.1,
    lt_of_le_of_lt (quantSample_le h1 h2 v0) hb.2⟩

/-- C1: for every 8-bit grayscale image and every `levels` with
`1 ≤ levels ≤ 256`, `reduce_gray_levels` (both `tp3.py` and `tp3_V3.py`)
returns the image in which every sample `v` is replaced by
`floor(v / factor) * factor` where `factor = floor(256 / levels)`; in
particular input sample 200 with levels = 4 yields 192 and input sample 63
yields 0. -/
theorem C1_quantize_formula {L : Int} (h1 : 1 ≤ L) (h2 : L ≤ 256) {img : Image}
    (hv : valid8 img) :
    reduce_gray_levels img L = Except.ok (mapImage (quantSample L) img) ∧
    reduce_gray_levels_V3 img L = Except.ok (mapImage (quantSample L) img) ∧
    quantSample 4 200 = 192 ∧ quantSample 4 63 = 0 :=
  ⟨reduce_gray_levels_ok h1 h2 img, reduce_gray_levels_V3_ok h1 h2 hv,
    by decide, by decide⟩

theorem C1_quantize_formula_witness :
    ((1 : Int) ≤ 4 ∧ (4 : Int) ≤ 256 ∧ valid8 [[200, 63]]) ∧
    (reduce_gray_levels [[200, 63]] 4 =
        Except.ok (mapImage (quantSample 4) [[200, 63]]) ∧
      reduce_gray_levels_V3 [[200, 63]] 4 =
        Except.ok (mapImage (quantSample 4) [[200, 63]]) ∧
      quantSample 4 200 = 192 ∧ quantSample 4 63 = 0) :=
  ⟨⟨by decide, by decide, by decide⟩,
    C1_quantize_formula (by decide) (by decide) (by decide)⟩

/-- C2: for every 8-bit image and every `levels` in `[1, 256]`, every output
sample of `reduce_gray_levels` (both versions) is a multiple of
`factor = floor(256/levels)` and is ≤ the corresponding input sample. -/
theorem C2_multiple_and_le {L : Int} (h1 : 1 ≤ L) (h2 : L ≤ 256) {img : Image}
    (hv : valid8 img) {out outV3 : Image}
    (ho : reduce_gray_levels img L = Except.ok out)
    (ho3 : reduce_gray_levels_V3 img L = Except.ok outV3) :
    List.Forall₂ (List.Forall₂ (fun v w => Int.fdiv 256 L ∣ w ∧ w ≤ v)) img out ∧
    List.Forall₂ (List.Forall₂ (fun v w => Int.fdiv 256 L ∣ w ∧ w ≤ v)) img outV3 := by
  obtain rfl : out = mapImage (quantSample L) img :=
    Except.ok.inj (ho.symm.trans (reduce_gray_levels_ok h1 h2 img))
  obtain rfl : outV3 = mapImage (quantSample L) img :=
    Except.ok.inj (ho3.symm.trans (reduce_gray_levels_V3_ok h1 h2 hv))
  constructor <;>
    exact forall₂_mapImage (fun row hrow v hvm =>
      ⟨factor_dvd_quantSample h1 h2 v, quantSample_le h1 h2 v⟩)

theorem C2_multiple_and_le_witness :
    ((1 : Int) ≤ 4 ∧ (4 : Int) ≤ 256 ∧ valid8 [[200, 63], [130]] ∧
      reduce_gray_levels [[200, 63], [130]] 4 = Except.ok [[192, 0], [128]] ∧
      reduce_gray_levels_V3 [[200, 63], [130]] 4 = Except.ok [[192, 0], [128]]) ∧
    (List.Forall₂ (List.Forall₂ (fun v w => Int.fdiv 256 4 ∣ w ∧ w ≤ v))
        [[200, 63], [130]] [[192, 0], [128]] ∧
      List.Forall₂ (List.Forall₂ (fun v w => Int.fdiv 256 4 ∣ w ∧ w ≤ v))
        [[200, 63], [130]] [[192, 0], [128]]) :=
  ⟨⟨by decide, by decide, by decide, rfl, rfl⟩,
    C2_multiple_and_le (by decide) (by decide) (by decide) rfl rfl⟩

/-- C3 counterexample: `reduce_gray_levels` in `tp3_V3.py` does not clamp
`levels` above 256: at levels = 300 on the valid 8-bit image `[[200]]`, the
factor `256 // 300` is 0 and the output is `[[0]]`, not the input. -/
theorem C3_counterexample :
    reduce_gray_levels_V3 [[200]] 300 = Except.ok [[0]] ∧
    ¬ reduce_gray_levels_V3 [[200]] 300 = Except.ok [[200]] := by
  refine ⟨rfl, fun h => ?_⟩
  have h2 : ([[0]] : Image) = [[200]] :=
    Except.ok.inj
      ((rfl : reduce_gray_levels_V3 [[200]] 300 = Except.ok [[0]]).symm.trans h)
  exact absurd h2 (by decide)

/-- C3 amended: for every image and every `levels > 256`, `tp3.py`'s
`reduce_gray_levels` clamps to 256 and is a no-op (output = input, no error),
while `tp3_V3.py`'s version does not clamp: `factor = 0`, and the numpy
division by zero makes every output sample 0 (still no error). -/
theorem C3_amended {L : Int} (h : 256 < L) (img : Image) :
    reduce_gray_levels img L = Except.ok img ∧
    reduce_gray_levels_V3 img L = Except.ok (mapImage (fun _ => 0) img) := by
  constructor
  · unfold reduce_gray_levels
    rw [show clampLevels L = 256 from if_pos h,
      if_neg (show ¬ (256 : Int) = 0 by omega)]
    congr 1
    refine mapImage_id_mem (fun row _ v _ => ?_)
    show Int.fdiv v (Int.fdiv 256 256) * Int.fdiv 256 256 = v
    rw [show Int.fdiv 256 256 = 1 by decide, Int.fdiv_one, mul_one]
  · unfold reduce_gray_levels_V3
    rw [if_neg (show ¬ L = 0 by omega)]
    congr 1
    have hfac : Int.fdiv 256 L = 0 := by
      rw [Int.fdiv_eq_ediv 256 (show (0 : Int) ≤ L by omega)]
      exact Int.ediv_eq_zero_of_lt (by omega) h
    refine mapImage_congr_mem (fun row _ v _ => ?_)
    show Int.emod (Int.fdiv v (Int.fdiv 256 L) * Int.fdiv 256 L) 256 = 0
    rw [hfac, mul_zero]
    decide

theorem C3_amended_witness :
    (256 : Int) < 300 ∧
    (reduce_gray_levels [[200]] 300 = Except.ok [[200]] ∧
      reduce_gray_levels_V3 [[200]] 300 =
        Except.ok (mapImage (fun _ => 0) [[200]])) :=
  ⟨by decide, C3_amended (by decide) [[200]]⟩

/-- C4 counterexample: the representative values are not `ceil(256/L)`-spaced
when `L` does not divide 256: at `L = 3`, `ceil(256/3) = 86` but the output
sample produced from input 100 is `85 = floor(256/3)`, which is not a multiple
of 86. -/
theorem C4_counterexample :
    reduce_gray_levels [[100]] 3 = Except.ok [[85]] ∧
    ceilDiv 256 3 = 86 ∧ ¬ ((86 : Int) ∣ 85) :=
  ⟨rfl, by decide, by omega⟩

/-- C4 amended: for every 8-bit image and every `L` in `[1, 256]`, every
output sample of `reduce_gray_levels` (both versions) belongs to the set
`{0, factor, 2·factor, …}` of representative values with
`factor = floor(256 / L)` — the representatives are `floor(256/L)`-spaced,
not `ceil(256/L)`-spaced. -/
theorem C4_amended {L : Int} (h1 : 1 ≤ L) (h2 : L ≤ 256) {img : Image}
    (hv : valid8 img) {out outV3 : Image}
    (ho : reduce_gray_levels img L = Except.ok out)
    (ho3 : reduce_gray_levels_V3 img L = Except.ok outV3) :
    List.Forall₂ (List.Forall₂
      (fun _ w => ∃ k : Int, 0 ≤ k ∧ w = k * Int.fdiv 256 L)) img out ∧
    List.Forall₂ (List.Forall₂
      (fun _ w => ∃ k : Int, 0 ≤ k ∧ w = k * Int.fdiv 256 L)) img outV3 := by
  obtain rfl : out = mapImage (quantSample L) img :=
    Except.ok.inj (ho.symm.trans (reduce_gray_levels_ok h1 h2 img))
  obtain rfl : outV3 = mapImage (quantSample L) img :=
    Except.ok.inj (ho3.symm.trans (reduce_gray_levels_V3_ok h1 h2 hv))
  constructor <;>
    refine forall₂_mapImage (fun row hrow v hvm =>
      ⟨v / (256 / L),
        Int.ediv_nonneg (hv row hrow v hvm).1 (le_of_lt (factor_pos_ediv h1 h2)),
        ?_⟩) <;>
    rw [quantSample_eq_ediv h1 h2, factor_eq_ediv h1]

theorem C4_amended_witness :
    ((1 : Int) ≤ 3 ∧ (3 : Int) ≤ 256 ∧ valid8 [[100]] ∧
      reduce_gray_levels [[100]] 3 = Except.ok [[85]] ∧
      reduce_gray_levels_V3 [[100]] 3 = Except.ok [[85]]) ∧
    (List.Forall₂ (List.Forall₂
        (fun _ w => ∃ k : Int, 0 ≤ k ∧ w = k * Int.fdiv 256 3))
        ([[100]] : Image) ([[85]] : Image) ∧
      List.Forall₂ (List.Forall₂
        (fun _ w => ∃ k : Int, 0 ≤ k ∧ w = k * Int.fdiv 256 3))
        ([[100]] : Image) ([[85]] : Image)) :=
  ⟨⟨by decide, by decide, by decide, rfl, rfl⟩,
    C4_amended (by decide) (by decide) (by decide)
      (show reduce_gray_levels [[100]] 3 = Except.ok [[85]] from rfl)
      (show reduce_gray_levels_V3 [[100]] 3 = Except.ok [[85]] from rfl)⟩

/-- C5: contrary to the claim that `reduce_gray_levels` fails with an
invalid-argument condition for every `levels ≤ 0`, the code does not validate
the level count: at `levels = 0` both versions raise `ZeroDivisionError`
(a division fault, not an argument check), and at `levels = -1` both silently
return a result (`tp3.py` maps sample 200 to 256 via `factor = -256`;
`tp3_V3.py` additionally wraps it to 0 via `astype(np.uint8)`). -/
theorem C5_nonpositive_levels_behavior :
    reduce_gray_levels [[200]] 0 =
      Except.error "ZeroDivisionError: integer division or modulo by zero" ∧
    reduce_gray_levels_V3 [[200]] 0 =
      Except.error "ZeroDivisionError: integer division or modulo by zero" ∧
    reduce_gray_levels [[200]] (-1) = Except.ok [[256]] ∧
    reduce_gray_levels_V3 [[200]] (-1) = Except.ok [[0]] :=
  ⟨rfl, rfl, rfl, rfl⟩

/-- C6: for every 8-bit image, `reduce_gray_levels` with `levels = 256`
(both versions) is the identity transform. -/
theorem C6_identity_at_256 {img : Image} (hv : valid8 img) :
    reduce_gray_levels img 256 = Except.ok img ∧
    reduce_gray_levels_V3 img 256 = Except.ok img := by
  have hid : mapImage (quantSample 256) img = img :=
    mapImage_id_mem (fun row _ v _ =>
      quantSample_eq_self_of_factor_one (by decide) v)
  rw [reduce_gray_levels_ok (by decide) (by decide) img,
    reduce_gray_levels_V3_ok (by decide) (by decide) hv, hid]
  exact ⟨rfl, rfl⟩

theorem C6_identity_at_256_witness :
    valid8 [[7, 255], [0]] ∧
    (reduce_gray_levels [[7, 255], [0]] 256 = Except.ok [[7, 255], [0]] ∧
      reduce_gray_levels_V3 [[7, 255], [0]] 256 = Except.ok [[7, 255], [0]]) :=
  ⟨by decide, C6_identity_at_256 (by decide)⟩

/-- C7: for every 8-bit image, `reduce_gray_levels` with `levels = 1`
(both versions) produces a grid of the same shape in which every sample
is 0 (`factor = 256`, so every sample maps to 0). -/
theorem C7_all_zero_at_levels_one {img : Image} (hv : valid8 img) :
    reduce_gray_levels img 1 = Except.ok (mapImage (fun _ => 0) img) ∧
    reduce_gray_levels_V3 img 1 = Except.ok (mapImage (fun _ => 0) img) ∧
    (mapImage (fun _ => 0) img).length = img.length ∧
    (mapImage (fun _ => 0) img).map List.length = img.map List.length := by
  have hz : mapImage (quantSample 1) img = mapImage (fun _ => 0) img :=
    mapImage_congr_mem (fun row hrow v hvm =>
      quantSample_one_eq_zero (hv row hrow v hvm).1 (hv row hrow v hvm).2)
  refine ⟨?_, ?_, (mapImage_shape _ img).1, (mapImage_shape _ img).2⟩
  · rw [reduce_gray_levels_ok (by decide) (by decide) img, hz]
  · rw [reduce_gray_levels_V3_ok (by decide) (by decide) hv, hz]

theorem C7_all_zero_at_levels_one_witness :
    valid8 [[9, 200], [255]] ∧
    (reduce_gray_levels [[9, 200], [255]] 1 =
        Except.ok (mapImage (fun _ => 0) [[9, 200], [255]]) ∧
      reduce_gray_levels_V3 [[9, 200], [255]] 1 =
        Except.ok (mapImage (fun _ => 0) [[9, 200], [255]]) ∧
      (mapImage (fun _ => 0) [[9, 200], [255]]).length =
        ([[9, 200], [255]] : Image).length ∧
      (mapImage (fun _ => 0) [[9, 200], [255]]).map List.length =
        ([[9, 200], [255]] : Image).map List.length) :=
  ⟨by decide, C7_all_zero_at_levels_one (by decide)⟩

/-- C8: for every 8-bit image and every `levels` in `[1, 256]`,
`reduce_gray_levels` (both versions) is idempotent at a fixed level count:
re-quantizing its own output at the same level count returns that output. -/
theorem C8_idempotent {L : Int} (h1 : 1 ≤ L) (h2 : L ≤ 256) {img : Image}
    (hv : valid8 img) {out outV3 : Image}
    (ho : reduce_gray_levels img L = Except.ok out)
    (ho3 : reduce_gray_levels_V3 img L = Except.ok outV3) :
    reduce_gray_levels out L = Except.ok out ∧
    reduce_gray_levels_V3 outV3 L = Except.ok outV3 := by
  obtain rfl : out = mapImage (quantSample L) img :=
    Except.ok.inj (ho.symm.trans (reduce_gray_levels_ok h1 h2 img))
  obtain rfl : outV3 = mapImage (quantSample L) img :=
    Except.ok.inj (ho3.symm.trans (reduce_gray_levels_V3_ok h1 h2 hv))
  have hq : mapImage (quantSample L) (mapImage (quantSample L) img) =
      mapImage (quantSample L) img := by
    rw [mapImage_comp]
    exact mapImage_congr_mem (fun row _ v _ => quantSample_idem h1 h2 v)
  constructor
  · rw [reduce_gray_levels_ok h1 h2, hq]
  · rw [reduce_gray_levels_V3_ok h1 h2 (valid8_mapImage_quant h1 h2 hv), hq]

theorem C8_idempotent_witness :
    ((1 : Int) ≤ 4 ∧ (4 : Int) ≤ 256 ∧ valid8 [[201, 64]] ∧
      reduce_gray_levels [[201, 64]] 4 = Except.ok [[192, 64]] ∧
      reduce_gray_levels_V3 [[201, 64]] 4 = Except.ok [[192, 64]]) ∧
    (reduce_gray_levels [[192, 64]] 4 = Except.ok [[192, 64]] ∧
      reduce_gray_levels_V3 [[192, 64]] 4 = Except.ok [[192, 64]]) :=
  ⟨⟨by decide, by decide, by decide, rfl, rfl⟩,
    C8_idempotent (by decide) (by decide) (by decide)
      (show reduce_gray_levels [[201, 64]] 4 = Except.ok [[192, 64]] from rfl)
      (show reduce_gray_levels_V3 [[201, 64]] 4 = Except.ok [[192, 64]] from rfl)⟩

/-- C9: for every 8-bit image and every `levels` with `129 ≤ levels ≤ 256`,
`reduce_gray_levels` (both versions) is the identity transform, because
`floor(256 / levels) = 1` on the whole range — identity is not exclusive to
`levels = 256`. -/
theorem C9_identity_for_129_to_256 {L : Int} (h1 : 129 ≤ L) (h2 : L ≤ 256)
    {img : Image} (hv : valid8 img) :
    Int.fdiv 256 L = 1 ∧
    reduce_gray_levels img L = Except.ok img ∧
    reduce_gray_levels_V3 img L = Except.ok img := by
  have hf := factor_eq_one h1 h2
  have hid : mapImage (quantSample L) img = img :=
    mapImage_id_mem (fun row _ v _ => quantSample_eq_self_of_factor_one hf v)
  refine ⟨hf, ?_, ?_⟩
  · rw [reduce_gray_levels_ok (by omega) h2 img, hid]
  · rw [reduce_gray_levels_V3_ok (by omega) h2 hv, hid]

theorem C9_identity_for_129_to_256_witness :
    ((129 : Int) ≤ 129 ∧ (129 : Int) ≤ 256 ∧ valid8 [[3, 130]]) ∧
    (Int.fdiv 256 129 = 1 ∧
      reduce_gray_levels [[3, 130]] 129 = Except.ok [[3, 130]] ∧
      reduce_gray_levels_V3 [[3, 130]] 129 = Except.ok [[3, 130]]) :=
  ⟨⟨by decide, by decide, by decide⟩,
    C9_identity_for_129_to_256 (by decide) (by decide) (by decide)⟩

/-- C10: for every 8-bit image and every `levels` in `[1, 256]`, the
per-sample quantization error of `reduce_gray_levels` (both versions) is
strictly below the bucket width: `v - output(v) < factor` with
`factor = floor(256 / levels)`. -/
theorem C10_error_bound {L : Int} (h1 : 1 ≤ L) (h2 : L ≤ 256) {img : Image}
    (hv : valid8 img) {out outV3 : Image}
    (ho : reduce_gray_levels img L = Except.ok out)
    (ho3 : reduce_gray_levels_V3 img L = Except.ok outV3) :
    List.Forall₂ (List.Forall₂ (fun v w => v - w < Int.fdiv 256 L)) img out ∧
    List.Forall₂ (List.Forall₂ (fun v w => v - w < Int.fdiv 256 L)) img outV3 := by
  obtain rfl : out = mapImage (quantSample L) img :=
    Except.ok.inj (ho.symm.trans (reduce_gray_levels_ok h1 h2 img))
  obtain rfl : outV3 = mapImage (quantSample L) img :=
    Except.ok.inj (ho3.symm.trans (reduce_gray_levels_V3_ok h1 h2 hv))
  constructor <;>
    exact forall₂_mapImage (fun row hrow v hvm => quantSample_err_lt h1 h2 v)

theorem C10_error_bound_witness :
    ((1 : Int) ≤ 7 ∧ (7 : Int) ≤ 256 ∧ valid8 [[100]] ∧
      reduce_gray_levels [[100]] 7 = Except.ok [[72]] ∧
      reduce_gray_levels_V3 [[100]] 7 = Except.ok [[72]]) ∧
    (List.Forall₂ (List.Forall₂ (fun v w => v - w < Int.fdiv 256 7))
        [[100]] [[72]] ∧
      List.Forall₂ (List.Forall₂ (fun v w => v - w < Int.fdiv 256 7))
        [[100]] [[72]]) :=
  ⟨⟨by decide, by decide, by decide, rfl, rfl⟩,
    C10_error_bound (by decide) (by decide) (by decide) rfl rfl⟩
